import Mathlib

/-!
Verification of the deterministic classification-and-report pipeline of the
Brain-Tumor-Detection backend (`app.py`).

Identifier strings (base64 image strings) are modelled as lists of character
codes (`List Nat`); probabilities are modelled as rationals (`ℚ`), mirroring
the exact arithmetic the comparisons in the source perform.  Record free-text
fields (description, characteristics, treatment, colour) are presentation
content and are omitted from the embedded `ClassificationRecord`; the fields
the behaviour depends on (`type`, `severity`, `risk_level`) are kept verbatim.
-/

section HashFunction

/-- Embedding of `get_image_hash` (`app.py` lines 81-89).  In Python,
`hash_value & 0xFFFFFFFF` is `hash_value % 2^32`, always non-negative, and the
accumulator before masking is non-negative (it is `31*h + c` with `h, c ≥ 0`),
so the whole computation stays in `Nat`; the final `abs(hash_value)` is
mirrored by `Int.natAbs` of the (non-negative) value. -/
def get_image_hash (base64_string : List Nat) : Nat :=
  let hash_str := if 100 < base64_string.length then base64_string.take 100 else base64_string
  let hash_value : Nat :=
    hash_str.foldl (fun hash_value c => ((hash_value <<< 5) - hash_value + c) % 4294967296) 0
  (Int.ofNat hash_value).natAbs

/-- Modelled from the spec: the spec's reading of `get_image_hash`, in which the
final masked accumulator is reinterpreted as a signed 32-bit integer before the
absolute value is taken (so a final masked value `h ≥ 2^31` would yield
`2^32 - h`).  Kept only to compare with the source semantics above. -/
def get_image_hash_signedAbs (base64_string : List Nat) : Nat :=
  let hash_str := if 100 < base64_string.length then base64_string.take 100 else base64_string
  let hash_value : Nat :=
    hash_str.foldl (fun hash_value c => ((hash_value <<< 5) - hash_value + c) % 4294967296) 0
  if 2147483648 ≤ hash_value then 4294967296 - hash_value else hash_value

end HashFunction

section ClassificationTable

/-- One diagnostic record of the fixed classification table (`app.py`
lines 100-329).  Free-text fields are omitted (content, not behaviour). -/
structure ClassificationRecord where
  type : String
  severity : String
  risk_level : String
deriving DecidableEq, Repr

/-- The `prob ≤ 50` record (`app.py` lines 101-114). -/
def noTumorRecord : ClassificationRecord :=
  { type := "No Tumor Detected", severity := "Normal", risk_level := "No Risk" }

/-- The first `prob > 85` record (`app.py` lines 123-138). -/
def glioblastomaRecord : ClassificationRecord :=
  { type := "Glioblastoma (Grade IV Glioma)", severity := "Critical Risk", risk_level := "Critical" }

/-- The second `prob > 85` record (`app.py` lines 140-155). -/
def highGradeAstrocytomaRecord : ClassificationRecord :=
  { type := "High-Grade Astrocytoma (Grade III)", severity := "High Risk", risk_level := "High" }

/-- The four candidate records of the `70 < prob ≤ 85` bucket
(`app.py` lines 159-224, list `tumor_types_high`). -/
def tumor_types_high : List ClassificationRecord :=
  [ { type := "Atypical Meningioma (WHO Grade II)", severity := "Moderate-High Risk",
      risk_level := "Moderate-High" },
    { type := "Oligodendroglioma (Grade II-III)", severity := "Moderate Risk",
      risk_level := "Moderate" },
    { type := "Ependymoma (Grade II)", severity := "Moderate Risk",
      risk_level := "Moderate" },
    { type := "Low-Grade Astrocytoma (Grade II)", severity := "Moderate Risk",
      risk_level := "Moderate" } ]

/-- The five candidate records of the `55 < prob ≤ 70` bucket
(`app.py` lines 229-310, list `tumor_types_moderate`). -/
def tumor_types_moderate : List ClassificationRecord :=
  [ { type := "Pituitary Adenoma", severity := "Low-Moderate Risk",
      risk_level := "Low-Moderate" },
    { type := "Acoustic Neuroma (Vestibular Schwannoma)", severity := "Low-Moderate Risk",
      risk_level := "Low" },
    { type := "Craniopharyngioma", severity := "Low-Moderate Risk",
      risk_level := "Low-Moderate" },
    { type := "Pineal Region Tumor", severity := "Low-Moderate Risk",
      risk_level := "Low-Moderate" },
    { type := "Meningioma (WHO Grade I)", severity := "Low Risk",
      risk_level := "Low" } ]

/-- The `50 < prob ≤ 55` fallthrough record (`app.py` lines 314-329). -/
def indeterminateRecord : ClassificationRecord :=
  { type := "Abnormal Growth - Indeterminate Type",
    severity := "Uncertain - Requires Further Evaluation", risk_level := "Uncertain" }

/-- Embedding of `classify_tumor_type` (`app.py` lines 92-329).  The list
indexing `tumor_types_high[selector % len]` / `tumor_types_moderate[...]` is in
range because the index is reduced mod the list length, so `List.getD` with an
arbitrary default is an exact model. -/
def classify_tumor_type (probability : ℚ) (image_base64 : List Nat) : ClassificationRecord :=
  let prob := probability * 100
  if prob ≤ 50 then noTumorRecord
  else
    let image_hash := get_image_hash image_base64
    let tumor_type_selector := image_hash % 5
    if 85 < prob then
      if tumor_type_selector = 0 ∨ tumor_type_selector = 1 then glioblastomaRecord
      else highGradeAstrocytomaRecord
    else if 70 < prob then
      tumor_types_high.getD (tumor_type_selector % tumor_types_high.length) noTumorRecord
    else if 55 < prob then
      tumor_types_moderate.getD (tumor_type_selector % tumor_types_moderate.length) noTumorRecord
    else indeterminateRecord

end ClassificationTable

section ReportComposition

/-- One per-item block of the generated report (`app.py` lines 482-603).
A `normal` section carries the positive/negative flag (line 465), the
confidence value whose two-decimal rendering the code prints (line 512), and
the resolved record; an `errorPlaceholder` section is what the per-item
`except` branch emits (lines 596-603), carrying only the already-resolved
record. -/
inductive ReportSection where
  | normal (is_positive : Bool) (confidence : ℚ) (tumor_info : ClassificationRecord)
  | errorPlaceholder (tumor_info : ClassificationRecord)
deriving DecidableEq, Repr

/-- The two ways the report-generation body can raise past the per-item
handler: the out-of-range `images_base64[idx]` access (line 468) and the
unguarded division by `total_images` in the summary table (lines 616-619). -/
inductive ReportError where
  | indexError
  | zeroDivision
deriving DecidableEq, Repr

/-- The counters accumulated by the per-item loop (`app.py` lines 456-480). -/
structure Stats where
  positive_count : Nat
  negative_count : Nat
  high_risk_count : Nat
  critical_risk_count : Nat
  tumor_types_found : List (String × Nat)
deriving DecidableEq, Repr

/-- Counters before the loop (`app.py` lines 456-460). -/
def initStats : Stats :=
  { positive_count := 0, negative_count := 0, high_risk_count := 0,
    critical_risk_count := 0, tumor_types_found := [] }

/-- `tumor_types_found[t] = tumor_types_found.get(t, 0) + 1` (`app.py`
line 478) on an insertion-ordered association list, as a Python dict is. -/
def histIncr (hist : List (String × Nat)) (key : String) : List (String × Nat) :=
  if hist.any (fun kv => kv.fst == key) then
    hist.map (fun kv => if kv.fst == key then (kv.fst, kv.snd + 1) else kv)
  else hist ++ [(key, 1)]

/-- The counter updates of one loop iteration (`app.py` lines 464-480):
`is_positive = prob > 0.5`; if positive, increment the positive count, then
the critical counter when `probability > 85`, else the high counter when
`probability > 70`, then the label histogram entry; otherwise increment the
negative count. -/
def statsStep (prob : ℚ) (image : List Nat) (st : Stats) : Stats :=
  let probability := prob * 100
  let tumor_info := classify_tumor_type prob image
  if 1/2 < prob then
    let st1 := { st with positive_count := st.positive_count + 1 }
    let st2 :=
      if 85 < probability then
        { st1 with critical_risk_count := st1.critical_risk_count + 1 }
      else if 70 < probability then
        { st1 with high_risk_count := st1.high_risk_count + 1 }
      else st1
    { st2 with tumor_types_found := histIncr st2.tumor_types_found tumor_info.type }
  else { st with negative_count := st.negative_count + 1 }

/-- The section one loop iteration appends (`app.py` lines 482-603).  All
image decoding/embedding work sits inside the per-item `try`; `decodeFails`
is the oracle for whether that external work raises for the given image.  On
failure the `except` branch appends the placeholder carrying the record that
was resolved before the `try` (line 468); otherwise the normal block carries
`is_positive` and `confidence = probability if positive else 100-probability`
(lines 465, 512). -/
def mkSection (decodeFails : List Nat → Bool) (prob : ℚ) (image : List Nat) : ReportSection :=
  let probability := prob * 100
  let is_positive : Bool := decide (1/2 < prob)
  let tumor_info := classify_tumor_type prob image
  if decodeFails image then ReportSection.errorPlaceholder tumor_info
  else
    ReportSection.normal is_positive
      (if is_positive then probability else 100 - probability) tumor_info

/-- State threaded through the per-item loop. -/
structure ReportState where
  stats : Stats
  sections : List ReportSection
deriving DecidableEq, Repr

/-- The per-item loop `for idx, prob in enumerate(predictions['result'])`
(`app.py` lines 463-603).  `images_base64[idx]` (line 468) is the one fallible
access: it sits before the per-item `try`, so an out-of-range index aborts the
whole loop with `indexError` rather than producing a placeholder. -/
def reportLoop (decodeFails : List Nat → Bool) (images : List (List Nat)) :
    List ℚ → Nat → ReportState → Except ReportError ReportState
  | [], _, st => .ok st
  | prob :: rest, idx, st =>
    match images.get? idx with
    | none => .error .indexError
    | some image =>
      reportLoop decodeFails images rest (idx + 1)
        { stats := statsStep prob image st.stats,
          sections := st.sections ++ [mkSection decodeFails prob image] }

/-- The dataset-level summary table (`app.py` lines 611-620). -/
structure ReportSummary where
  total : Nat
  positive_count : Nat
  negative_count : Nat
  critical_risk_count : Nat
  high_risk_count : Nat
  positive_pct : ℚ
  critical_pct : ℚ
  high_pct : ℚ
  negative_pct : ℚ
deriving DecidableEq, Repr

/-- The summary row values when the divisions succeed (`app.py`
lines 613-620). -/
def mkSummary (stats : Stats) (total_images : Nat) : ReportSummary :=
  { total := total_images,
    positive_count := stats.positive_count,
    negative_count := stats.negative_count,
    critical_risk_count := stats.critical_risk_count,
    high_risk_count := stats.high_risk_count,
    positive_pct := (stats.positive_count : ℚ) / (total_images : ℚ) * 100,
    critical_pct := (stats.critical_risk_count : ℚ) / (total_images : ℚ) * 100,
    high_pct := (stats.high_risk_count : ℚ) / (total_images : ℚ) * 100,
    negative_pct := (stats.negative_count : ℚ) / (total_images : ℚ) * 100 }

/-- The summary computation with the fallible Python division made explicit:
`positive_count/total_images*100` (`app.py` line 616) raises
`ZeroDivisionError` when `total_images = 0`; there is no guard in the
source. -/
def computeSummary (stats : Stats) (total_images : Nat) : Except ReportError ReportSummary :=
  if total_images = 0 then .error .zeroDivision
  else .ok (mkSummary stats total_images)

/-- The document model the route renders to PDF: the ordered per-item
sections, the summary table, and the tumor-type distribution table
(`app.py` lines 605-677). -/
structure Report where
  sections : List ReportSection
  summary : ReportSummary
  tumor_types_found : List (String × Nat)
deriving DecidableEq, Repr

/-- The report-generation body inside the route's outer `try` (`app.py`
lines 340-965): run the per-item loop over `predictions['result']` with
`total_images = len(predictions['result'])` (line 611), then build the
summary. -/
def generate_report (decodeFails : List Nat → Bool) (results : List ℚ)
    (images : List (List Nat)) : Except ReportError Report :=
  match reportLoop decodeFails images results 0 { stats := initStats, sections := [] } with
  | .error e => .error e
  | .ok st =>
    match computeSummary st.stats results.length with
    | .error e => .error e
    | .ok summary =>
      .ok { sections := st.sections, summary := summary,
            tumor_types_found := st.stats.tumor_types_found }

/-- The HTTP outcome of `POST /generate-report`: a PDF attachment on success,
or the outer `except` branch answering 500 with no PDF (`app.py`
lines 960-971). -/
inductive HttpResponse where
  | pdfAttachment (report : Report)
  | serverError (e : ReportError)
deriving DecidableEq, Repr

/-- The route-level wrapper (`app.py` lines 332-971). -/
def generate_report_route (decodeFails : List Nat → Bool) (results : List ℚ)
    (images : List (List Nat)) : HttpResponse :=
  match generate_report decodeFails results images with
  | .ok r => .pdfAttachment r
  | .error e => .serverError e

/-- The sequence of sections the loop produces when no index is out of
range: item `i` yields `mkSection` of its probability and image. -/
def sectionsOf (decodeFails : List Nat → Bool) (images : List (List Nat)) :
    List ℚ → Nat → List ReportSection
  | [], _ => []
  | prob :: rest, idx =>
    mkSection decodeFails prob (images.getD idx []) ::
      sectionsOf decodeFails images rest (idx + 1)

/-- The counters the loop accumulates when no index is out of range;
independent of the decode-failure oracle. -/
def statsFold (images : List (List Nat)) : List ℚ → Nat → Stats → Stats
  | [], _, st => st
  | prob :: rest, idx, st =>
    statsFold images rest (idx + 1) (statsStep prob (images.getD idx []) st)

end ReportComposition

section HelperLemmas

/-- `get_image_hash` is the masked fold over the first 100 character codes:
when the string is at most 100 characters long, truncation is the identity. -/
lemma get_image_hash_eq_take (s : List Nat) :
    get_image_hash s =
      (s.take 100).foldl (fun h c => ((h <<< 5) - h + c) % 4294967296) 0 := by
  unfold get_image_hash
  by_cases h : 100 < s.length
  · simp [h]
  · simp [h, List.take_of_length_le (le_of_not_lt h)]

/-- Each masking step keeps the accumulator below `2^32`. -/
lemma foldl_mask_lt (l : List Nat) :
    ∀ h : Nat, h < 4294967296 →
      l.foldl (fun h c => ((h <<< 5) - h + c) % 4294967296) h < 4294967296 := by
  induction l with
  | nil => intro h hh; simpa using hh
  | cons c l ih =>
    intro h hh
    simpa using ih _ (Nat.mod_lt _ (by norm_num))

/-- A list element fetched at an index reduced mod the length is a member. -/
lemma getD_mod_mem (l : List ClassificationRecord) (n : Nat) (h : l ≠ []) :
    l.getD (n % l.length) noTumorRecord ∈ l := by
  have hlen : 0 < l.length := List.length_pos.2 h
  have hm : n % l.length < l.length := Nat.mod_lt _ hlen
  rw [List.getD_eq_getElem _ _ hm]
  exact List.getElem_mem hm

end HelperLemmas

/-- C3: corrected.  The hash is computed over at most the first 100 character
codes by iterating `h = ((h << 5) - h + c) & 0xFFFFFFFF`, and the returned
value is the final masked accumulator itself, a non-negative integer below
`2^32` — the Python mask never produces a negative value, so the final `abs`
is the identity (there is no signed reinterpretation). -/
theorem C3_hash_masked_value (s : List Nat) :
    get_image_hash s =
      (s.take 100).foldl (fun h c => ((h <<< 5) - h + c) % 4294967296) 0 ∧
    get_image_hash s < 4294967296 := by
  refine ⟨get_image_hash_eq_take s, ?_⟩
  rw [get_image_hash_eq_take s]
  exact foldl_mask_lt _ 0 (by norm_num)

/-- C3: counterexample to the signed-interpretation reading.  On the 7-`'a'`
string the final masked accumulator is `3058106369 ≥ 2^31`; the code returns
it unchanged, not `2^32 - 3058106369 = 1236860927` as the claim's signed-abs
semantics would. -/
theorem C3_counterexample :
    get_image_hash (List.replicate 7 97) = 3058106369 ∧
    2147483648 ≤ 3058106369 ∧
    get_image_hash_signedAbs (List.replicate 7 97) = 1236860927 ∧
    get_image_hash (List.replicate 7 97) ≠
      get_image_hash_signedAbs (List.replicate 7 97) := by
  decide

/-- C6: `get_image_hash` and `classify_tumor_type` are pure functions of the
probability and the first 100 character codes of the identifier: identifiers
sharing a 100-character prefix hash identically and classify identically at
every probability. -/
theorem C6_prefix_determinism (p : ℚ) (s1 s2 : List Nat)
    (h : s1.take 100 = s2.take 100) :
    get_image_hash s1 = get_image_hash s2 ∧
    classify_tumor_type p s1 = classify_tumor_type p s2 := by
  have hh : get_image_hash s1 = get_image_hash s2 := by
    rw [get_image_hash_eq_take s1, get_image_hash_eq_take s2, h]
  refine ⟨hh, ?_⟩
  simp only [classify_tumor_type, hh]

/-- C6 witness: the spec's own collision example, `"x"*150` versus
`"x"*100` plus a different tail, at probability `0.60`. -/
theorem C6_witness :
    get_image_hash (List.replicate 150 120) =
      get_image_hash (List.replicate 100 120 ++ [68, 73, 70, 70]) ∧
    classify_tumor_type ((3:ℚ)/5) (List.replicate 150 120) =
      classify_tumor_type ((3:ℚ)/5) (List.replicate 100 120 ++ [68, 73, 70, 70]) :=
  C6_prefix_determinism ((3:ℚ)/5) _ _ (by decide)

/-- C1: the bucket structure of `classify_tumor_type` on `prob = p*100`, with
strict upper comparisons and inclusive lower boundaries: `prob ≤ 50` is the
fixed no-tumor record (severity Normal, risk No Risk), `50 < prob ≤ 55` the
fixed indeterminate record, `55 < prob ≤ 70` one of the 5 moderate candidates,
`70 < prob ≤ 85` one of the 4 high candidates, `prob > 85` one of the two top
records; and `classify(0.50, id)` and `classify(0.5000001, id)` land in
different buckets. -/
theorem C1_bucket_boundaries (p : ℚ) (id : List Nat) :
    (p * 100 ≤ 50 → classify_tumor_type p id = noTumorRecord) ∧
    (50 < p * 100 → p * 100 ≤ 55 → classify_tumor_type p id = indeterminateRecord) ∧
    (55 < p * 100 → p * 100 ≤ 70 → classify_tumor_type p id ∈ tumor_types_moderate) ∧
    (70 < p * 100 → p * 100 ≤ 85 → classify_tumor_type p id ∈ tumor_types_high) ∧
    (85 < p * 100 →
      classify_tumor_type p id = glioblastomaRecord ∨
      classify_tumor_type p id = highGradeAstrocytomaRecord) ∧
    tumor_types_moderate.length = 5 ∧
    tumor_types_high.length = 4 ∧
    noTumorRecord.severity = "Normal" ∧
    noTumorRecord.risk_level = "No Risk" ∧
    indeterminateRecord.risk_level = "Uncertain" ∧
    classify_tumor_type ((1:ℚ)/2) id = noTumorRecord ∧
    classify_tumor_type ((5000001:ℚ)/10000000) id = indeterminateRecord := by
  refine ⟨?_, ?_, ?_, ?_, ?_, rfl, rfl, rfl, rfl, rfl, ?_, ?_⟩
  · intro h
    simp [classify_tumor_type, h]
  · intro h1 h2
    have c1 : ¬ p * 100 ≤ 50 := not_le.2 h1
    have c2 : ¬ 85 < p * 100 := by linarith
    have c3 : ¬ 70 < p * 100 := by linarith
    have c4 : ¬ 55 < p * 100 := by linarith
    simp [classify_tumor_type, c1, c2, c3, c4]
  · intro h1 h2
    have c1 : ¬ p * 100 ≤ 50 := by linarith
    have c2 : ¬ 85 < p * 100 := by linarith
    have c3 : ¬ 70 < p * 100 := by linarith
    simp only [classify_tumor_type, if_neg c1, if_neg c2, if_neg c3, if_pos h1]
    exact getD_mod_mem _ _ (by decide)
  · intro h1 h2
    have c1 : ¬ p * 100 ≤ 50 := by linarith
    have c2 : ¬ 85 < p * 100 := by linarith
    simp only [classify_tumor_type, if_neg c1, if_neg c2, if_pos h1]
    exact getD_mod_mem _ _ (by decide)
  · intro h
    have c1 : ¬ p * 100 ≤ 50 := by linarith
    by_cases hs : get_image_hash id % 5 = 0 ∨ get_image_hash id % 5 = 1
    · left; simp [classify_tumor_type, c1, h, hs]
    · right; simp [classify_tumor_type, c1, h, hs]
  · norm_num [classify_tumor_type]
  · norm_num [classify_tumor_type]

/-- C1 witness: probability `0.60` lands among the 5 moderate candidates and
probability `0.50` yields the no-tumor record. -/
theorem C1_witness :
    classify_tumor_type ((3:ℚ)/5) [] ∈ tumor_types_moderate ∧
    classify_tumor_type ((1:ℚ)/2) [] = noTumorRecord := by
  obtain ⟨_, _, h3, _⟩ := C1_bucket_boundaries ((3:ℚ)/5) []
  obtain ⟨g1, _⟩ := C1_bucket_boundaries ((1:ℚ)/2) []
  exact ⟨h3 (by norm_num) (by norm_num), g1 (by norm_num)⟩

/-- C2: counterexample.  In the `70 < prob ≤ 85` bucket the code indexes with
`(hash % 5) % 4`, not `hash % 4`: for the one-character identifier with code
73 (`hash = 73`, `73 % 4 = 1`) the chosen record is
`tumor_types_high[3]`, not `tumor_types_high[1]`; and codes 73 and 65 agree
mod 4 yet select different records. -/
theorem C2_counterexample :
    get_image_hash [73] % 4 = 1 ∧
    get_image_hash [65] % 4 = 1 ∧
    classify_tumor_type ((3:ℚ)/4) [73] = tumor_types_high.getD 3 noTumorRecord ∧
    classify_tumor_type ((3:ℚ)/4) [73] ≠ tumor_types_high.getD 1 noTumorRecord ∧
    classify_tumor_type ((3:ℚ)/4) [73] ≠ classify_tumor_type ((3:ℚ)/4) [65] := by
  refine ⟨by decide, by decide, ?_, ?_, ?_⟩ <;>
    norm_num [classify_tumor_type, get_image_hash, tumor_types_high, noTumorRecord] <;>
    decide

/-- C2: amended.  The selector is `hash(identifier) mod 5` for every
list-valued bucket; the chosen index is `(hash mod 5) mod N` (which equals
`hash mod 5` for the 5-candidate bucket but is `(hash mod 5) mod 4`, not
`hash mod 4`, for the 4-candidate bucket), and `classify` is invariant under
identifiers sharing the same value of `hash mod 5`. -/
theorem C2_selector_amended (p : ℚ) (s1 s2 : List Nat)
    (h : get_image_hash s1 % 5 = get_image_hash s2 % 5) :
    classify_tumor_type p s1 = classify_tumor_type p s2 ∧
    (70 < p * 100 → p * 100 ≤ 85 →
      classify_tumor_type p s1 =
        tumor_types_high.getD ((get_image_hash s1 % 5) % 4) noTumorRecord) ∧
    (55 < p * 100 → p * 100 ≤ 70 →
      classify_tumor_type p s1 =
        tumor_types_moderate.getD (get_image_hash s1 % 5) noTumorRecord) := by
  refine ⟨?_, ?_, ?_⟩
  · simp only [classify_tumor_type, h]
  · intro h1 h2
    have c1 : ¬ p * 100 ≤ 50 := by linarith
    have c2 : ¬ 85 < p * 100 := by linarith
    simp only [classify_tumor_type, if_neg c1, if_neg c2, if_pos h1]
    rfl
  · intro h1 h2
    have c1 : ¬ p * 100 ≤ 50 := by linarith
    have c2 : ¬ 85 < p * 100 := by linarith
    have c3 : ¬ 70 < p * 100 := by linarith
    simp only [classify_tumor_type, if_neg c1, if_neg c2, if_neg c3, if_pos h1]
    have : get_image_hash s1 % 5 % tumor_types_moderate.length = get_image_hash s1 % 5 := by
      show get_image_hash s1 % 5 % 5 = get_image_hash s1 % 5
      omega
    rw [this]

/-- C2 witness: codes 73 and 68 share `hash mod 5 = 3` and classify
identically at probability `0.75`, selecting index `3 mod 4 = 3`. -/
theorem C2_witness :
    classify_tumor_type ((3:ℚ)/4) [73] = classify_tumor_type ((3:ℚ)/4) [68] ∧
    classify_tumor_type ((3:ℚ)/4) [73] =
      tumor_types_high.getD ((get_image_hash [73] % 5) % 4) noTumorRecord := by
  obtain ⟨ha, hb, _⟩ := C2_selector_amended ((3:ℚ)/4) [73] [68] (by decide)
  exact ⟨ha, hb (by norm_num) (by norm_num)⟩

/-- C4: in the `prob > 85` bucket the code returns the most aggressive record
(Glioblastoma, Critical Risk) exactly when `hash(identifier) mod 5 ∈ {0, 1}`,
and the second-tier record (High-Grade Astrocytoma, High Risk) on the other
three residues — the 2-of-5 versus 3-of-5 weighting. -/
theorem C4_top_bucket (p : ℚ) (id : List Nat) (h : 85 < p * 100) :
    classify_tumor_type p id =
      (if get_image_hash id % 5 = 0 ∨ get_image_hash id % 5 = 1 then glioblastomaRecord
       else highGradeAstrocytomaRecord) ∧
    glioblastomaRecord.type = "Glioblastoma (Grade IV Glioma)" ∧
    glioblastomaRecord.severity = "Critical Risk" ∧
    highGradeAstrocytomaRecord.type = "High-Grade Astrocytoma (Grade III)" ∧
    highGradeAstrocytomaRecord.severity = "High Risk" := by
  have c1 : ¬ p * 100 ≤ 50 := by linarith
  exact ⟨by simp only [classify_tumor_type, if_neg c1, if_pos h], rfl, rfl, rfl, rfl⟩

/-- C4 witness: probability `0.90` with the empty identifier (`hash = 0`,
residue 0) yields the Glioblastoma record. -/
theorem C4_witness :
    classify_tumor_type ((9:ℚ)/10) [] =
      (if get_image_hash [] % 5 = 0 ∨ get_image_hash [] % 5 = 1 then glioblastomaRecord
       else highGradeAstrocytomaRecord) ∧
    glioblastomaRecord.type = "Glioblastoma (Grade IV Glioma)" ∧
    glioblastomaRecord.severity = "Critical Risk" ∧
    highGradeAstrocytomaRecord.type = "High-Grade Astrocytoma (Grade III)" ∧
    highGradeAstrocytomaRecord.severity = "High Risk" :=
  C4_top_bucket ((9:ℚ)/10) [] (by norm_num)

section ReportLemmas

/-- Counter bookkeeping of one iteration: exactly one of the positive and
negative counts is incremented. -/
lemma statsStep_pos_neg (prob : ℚ) (image : List Nat) (st : Stats) :
    (statsStep prob image st).positive_count + (statsStep prob image st).negative_count =
      st.positive_count + st.negative_count + 1 := by
  simp only [statsStep]
  split_ifs <;> simp <;> omega

/-- Counter bookkeeping of one iteration: the risk-tier counters never
overtake the positive count. -/
lemma statsStep_risk (prob : ℚ) (image : List Nat) (st : Stats)
    (h : st.critical_risk_count + st.high_risk_count ≤ st.positive_count) :
    (statsStep prob image st).critical_risk_count +
      (statsStep prob image st).high_risk_count ≤
      (statsStep prob image st).positive_count := by
  simp only [statsStep]
  split_ifs <;> simp <;> omega

/-- When the result list overruns the image list, the loop aborts with the
index error of `images_base64[idx]`. -/
lemma reportLoop_indexError (d : List Nat → Bool) (images : List (List Nat)) :
    ∀ (rest : List ℚ) (idx : Nat) (st : ReportState),
      idx ≤ images.length → images.length < idx + rest.length →
      reportLoop d images rest idx st = .error .indexError := by
  intro rest
  induction rest with
  | nil =>
    intro idx st h1 h2
    simp only [List.length_nil] at h2
    omega
  | cons prob rest ih =>
    intro idx st h1 h2
    cases hg : images.get? idx with
    | none => simp only [reportLoop, hg]
    | some image =>
      have hidx : idx < images.length := by
        by_contra hc
        rw [List.get?_eq_none.2 (by omega)] at hg
        cases hg
      simp only [reportLoop, hg]
      exact ih (idx + 1) _ (by omega) (by simp only [List.length_cons] at h2; omega)

/-- In-range run of the loop: the final state is the decode-independent
counter fold together with the appended per-item sections. -/
lemma reportLoop_ok (d : List Nat → Bool) (images : List (List Nat)) :
    ∀ (rest : List ℚ) (idx : Nat) (st : ReportState),
      idx + rest.length ≤ images.length →
      reportLoop d images rest idx st =
        .ok { stats := statsFold images rest idx st.stats,
              sections := st.sections ++ sectionsOf d images rest idx } := by
  intro rest
  induction rest with
  | nil =>
    intro idx st h
    simp [reportLoop, statsFold, sectionsOf]
  | cons prob rest ih =>
    intro idx st h
    have hidx : idx < images.length := by
      simp only [List.length_cons] at h; omega
    have hg : images.get? idx = some (images.getD idx []) := by
      rw [List.getD_eq_getElem _ _ hidx]
      rw [List.get?_eq_get hidx]
      rfl
    simp only [reportLoop, hg]
    rw [ih (idx + 1) _ (by simp only [List.length_cons] at h; omega)]
    simp [statsFold, sectionsOf]

/-- The loop keeps `positive + negative = processed count` and
`critical + high ≤ positive`. -/
lemma reportLoop_stats_inv (d : List Nat → Bool) (images : List (List Nat)) :
    ∀ (rest : List ℚ) (idx : Nat) (st st2 : ReportState),
      reportLoop d images rest idx st = .ok st2 →
      st2.stats.positive_count + st2.stats.negative_count =
        st.stats.positive_count + st.stats.negative_count + rest.length ∧
      (st.stats.critical_risk_count + st.stats.high_risk_count ≤ st.stats.positive_count →
        st2.stats.critical_risk_count + st2.stats.high_risk_count ≤
          st2.stats.positive_count) := by
  intro rest
  induction rest with
  | nil =>
    intro idx st st2 h
    simp only [reportLoop] at h
    cases h
    exact ⟨by simp, fun hr => hr⟩
  | cons prob rest ih =>
    intro idx st st2 h
    cases hg : images.get? idx with
    | none =>
      simp only [reportLoop, hg] at h
      cases h
    | some image =>
      simp only [reportLoop, hg] at h
      obtain ⟨h1, h2⟩ := ih (idx + 1) _ st2 h
      have h3 := statsStep_pos_neg prob image st.stats
      refine ⟨?_, ?_⟩
      · simp only [List.length_cons]
        simp only at h1
        omega
      · intro hr
        exact h2 (statsStep_risk prob image st.stats hr)

/-- Unpacking a successful `generate_report`: the loop succeeded, the batch
was non-empty, and the report is assembled from the final state. -/
lemma generate_report_ok_elim (d : List Nat → Bool) (results : List ℚ)
    (images : List (List Nat)) (r : Report)
    (h : generate_report d results images = .ok r) :
    ∃ st, reportLoop d images results 0 { stats := initStats, sections := [] } = .ok st ∧
      results.length ≠ 0 ∧
      r = { sections := st.sections, summary := mkSummary st.stats results.length,
            tumor_types_found := st.stats.tumor_types_found } := by
  unfold generate_report at h
  split at h
  · cases h
  · rename_i st hl
    split at h
    · cases h
    · rename_i summary hs
      injection h with h
      unfold computeSummary at hs
      by_cases hz : results.length = 0
      · rw [if_pos hz] at hs; cases hs
      · rw [if_neg hz] at hs
        injection hs with hs
        refine ⟨st, hl, hz, ?_⟩
        rw [← h, hs]

/-- Closed form of a successful `generate_report` on an in-range, non-empty
batch. -/
lemma generate_report_ok_char (d : List Nat → Bool) (results : List ℚ)
    (images : List (List Nat)) (h1 : results.length ≤ images.length)
    (h2 : results ≠ []) :
    generate_report d results images =
      .ok { sections := sectionsOf d images results 0,
            summary := mkSummary (statsFold images results 0 initStats) results.length,
            tumor_types_found :=
              (statsFold images results 0 initStats).tumor_types_found } := by
  have hloop := reportLoop_ok d images results 0 { stats := initStats, sections := [] }
    (by omega)
  have hne : results.length ≠ 0 := by
    cases results with
    | nil => exact absurd rfl h2
    | cons a l => simp
  simp only [generate_report, hloop, computeSummary, if_neg hne, List.nil_append]

/-- `sectionsOf` yields one section per item. -/
lemma sectionsOf_length (d : List Nat → Bool) (images : List (List Nat)) :
    ∀ (rest : List ℚ) (idx : Nat), (sectionsOf d images rest idx).length = rest.length := by
  intro rest
  induction rest with
  | nil => intro idx; rfl
  | cons prob rest ih => intro idx; simp [sectionsOf, ih]

/-- The `i`-th section is `mkSection` of the `i`-th probability and image. -/
lemma sectionsOf_getD (d : List Nat → Bool) (images : List (List Nat)) :
    ∀ (rest : List ℚ) (idx i : Nat), i < rest.length →
      (sectionsOf d images rest idx).getD i (.errorPlaceholder noTumorRecord) =
        mkSection d (rest.getD i 0) (images.getD (idx + i) []) := by
  intro rest
  induction rest with
  | nil => intro idx i hi; simp at hi
  | cons prob rest ih =>
    intro idx i hi
    cases i with
    | zero => simp [sectionsOf]
    | succ i =>
      simp only [sectionsOf, List.getD_cons_succ, List.getD_cons_succ]
      rw [ih (idx + 1) i (by simp only [List.length_cons] at hi; omega)]
      have : idx + 1 + i = idx + (i + 1) := by omega
      rw [this]

end ReportLemmas

/-- C5: report accumulation.  Per item: the positive flag is
`probability > 0.5` and the confidence is `probability*100` if positive else
`(1-probability)*100`; the summary total is the batch length; a positive item
increments the positive count, the critical counter when
`probability*100 > 85`, the high counter when `85 ≥ probability*100 > 70`, and
its label's histogram entry, while a negative item increments only the
negative count; and the concrete batch `[(0.92, idA), (0.30, idB)]` yields
total 2, positive 1, negative 1, critical 1, section 0 positive with
confidence 92 and section 1 negative with confidence 70. -/
theorem C5_report_accumulation :
    (∀ (prob : ℚ) (image : List Nat),
      mkSection (fun _ => false) prob image =
        ReportSection.normal (decide ((1:ℚ)/2 < prob))
          (if (1:ℚ)/2 < prob then prob * 100 else (1 - prob) * 100)
          (classify_tumor_type prob image)) ∧
    (∀ (prob : ℚ) (image : List Nat) (st : Stats),
      ((1:ℚ)/2 < prob →
        (statsStep prob image st).positive_count = st.positive_count + 1 ∧
        (statsStep prob image st).negative_count = st.negative_count ∧
        (statsStep prob image st).critical_risk_count =
          (if 85 < prob * 100 then st.critical_risk_count + 1
           else st.critical_risk_count) ∧
        (statsStep prob image st).high_risk_count =
          (if prob * 100 ≤ 85 ∧ 70 < prob * 100 then st.high_risk_count + 1
           else st.high_risk_count) ∧
        (statsStep prob image st).tumor_types_found =
          histIncr st.tumor_types_found (classify_tumor_type prob image).type) ∧
      (prob ≤ (1:ℚ)/2 →
        statsStep prob image st = { st with negative_count := st.negative_count + 1 })) ∧
    (∀ (d : List Nat → Bool) (results : List ℚ) (images : List (List Nat)) (r : Report),
      generate_report d results images = .ok r → r.summary.total = results.length) ∧
    generate_report (fun _ => false) [(92:ℚ)/100, (30:ℚ)/100] [[65], [66]] =
      .ok { sections := [ .normal true 92 glioblastomaRecord,
                          .normal false 70 noTumorRecord ],
            summary := { total := 2, positive_count := 1, negative_count := 1,
                         critical_risk_count := 1, high_risk_count := 0,
                         positive_pct := 50, critical_pct := 50, high_pct := 0,
                         negative_pct := 50 },
            tumor_types_found := [("Glioblastoma (Grade IV Glioma)", 1)] } := by
  refine ⟨?_, ?_, ?_, ?_⟩
  · intro prob image
    by_cases hp : (1:ℚ)/2 < prob
    · simp [mkSection, hp, -one_div]
    · simp [mkSection, hp, -one_div]
      ring
  · intro prob image st
    constructor
    · intro hp
      rcases lt_or_le 85 (prob * 100) with h85 | h85
      · have h1 : ¬ (prob * 100 ≤ 85 ∧ 70 < prob * 100) := by
          rintro ⟨hc, _⟩; linarith
        simp [statsStep, hp, h85, h1, -one_div]
      · rcases lt_or_le 70 (prob * 100) with h70 | h70
        · have h1 : prob * 100 ≤ 85 ∧ 70 < prob * 100 := ⟨h85, h70⟩
          simp [statsStep, hp, not_lt.2 h85, h70, h1, -one_div]
        · have h1 : ¬ (prob * 100 ≤ 85 ∧ 70 < prob * 100) := by
            rintro ⟨_, hc⟩; linarith
          simp [statsStep, hp, not_lt.2 h85, not_lt.2 h70, h1, -one_div]
    · intro hp
      have hp' : ¬ (1:ℚ)/2 < prob := not_lt.2 hp
      simp [statsStep, hp', -one_div]
  · intro d results images r h
    obtain ⟨st, _, _, hr⟩ := generate_report_ok_elim d results images r h
    rw [hr]
    rfl
  · norm_num [generate_report, reportLoop, statsStep, mkSection, computeSummary, mkSummary,
      histIncr, classify_tumor_type, get_image_hash, initStats, glioblastomaRecord,
      noTumorRecord]

/-- C5 witness: the per-item characterizations applied at probability `0.92`
with a concrete image and the initial counters. -/
theorem C5_witness :
    mkSection (fun _ => false) ((92:ℚ)/100) [65] =
      ReportSection.normal (decide ((1:ℚ)/2 < (92:ℚ)/100))
        (if (1:ℚ)/2 < (92:ℚ)/100 then (92:ℚ)/100 * 100 else (1 - (92:ℚ)/100) * 100)
        (classify_tumor_type ((92:ℚ)/100) [65]) ∧
    (statsStep ((92:ℚ)/100) [65] initStats).positive_count =
      initStats.positive_count + 1 := by
  obtain ⟨ha, hb, _⟩ := C5_report_accumulation
  exact ⟨ha _ _, ((hb _ _ _).1 (by norm_num)).1⟩

/-- C7: counterexample.  On the empty batch the code neither raises a
documented empty-input error nor returns a zero-percentage summary: the
percentage computation divides by `total_images = 0` and the
`ZeroDivisionError` escapes to the request boundary. -/
theorem C7_counterexample :
    generate_report (fun _ => false) ([] : List ℚ) [] = .error .zeroDivision ∧
    generate_report_route (fun _ => false) ([] : List ℚ) [] =
      .serverError .zeroDivision := by
  exact ⟨rfl, rfl⟩

/-- C7: amended.  On an empty batch the summary-percentage computation
divides by a total count of zero; the fault is not guarded anywhere in
`generate_report` and is answered by the top-level 500 path with no PDF. -/
theorem C7_empty_batch_division (d : List Nat → Bool) (images : List (List Nat)) :
    generate_report d ([] : List ℚ) images = .error .zeroDivision ∧
    generate_report_route d ([] : List ℚ) images = .serverError .zeroDivision := by
  exact ⟨rfl, rfl⟩

/-- C8: per-item failure containment.  On an in-range, non-empty batch the
report is produced whatever the decode-failure oracle says: every item yields
a section, a failed item's section is the error placeholder carrying the
classification record already resolved for it, and the summary counters and
label histogram are identical to those of a failure-free run. -/
theorem C8_per_item_containment (d : List Nat → Bool) (results : List ℚ)
    (images : List (List Nat)) (h1 : results.length ≤ images.length)
    (h2 : results ≠ []) :
    ∃ r rclean,
      generate_report d results images = .ok r ∧
      generate_report (fun _ => false) results images = .ok rclean ∧
      r.summary = rclean.summary ∧
      r.tumor_types_found = rclean.tumor_types_found ∧
      r.sections.length = results.length ∧
      (∀ i, i < results.length → d (images.getD i []) = true →
        r.sections.getD i (.errorPlaceholder noTumorRecord) =
          .errorPlaceholder
            (classify_tumor_type (results.getD i 0) (images.getD i []))) := by
  refine ⟨_, _, generate_report_ok_char d results images h1 h2,
    generate_report_ok_char (fun _ => false) results images h1 h2, rfl, rfl,
    sectionsOf_length d images results 0, ?_⟩
  intro i hi hd
  show (sectionsOf d images results 0).getD i (.errorPlaceholder noTumorRecord) = _
  rw [sectionsOf_getD d images results 0 i hi]
  simp [mkSection, hd]
  simpa using hd

/-- C8 witness: a two-item batch where decoding the second image fails; the
report still carries two sections, the second being the placeholder with the
already-resolved no-tumor record, and the summary matches the clean run. -/
theorem C8_witness :
    ∃ r rclean,
      generate_report (fun img => img == [66]) [(92:ℚ)/100, (30:ℚ)/100]
        [[65], [66]] = .ok r ∧
      generate_report (fun _ => false) [(92:ℚ)/100, (30:ℚ)/100] [[65], [66]] = .ok rclean ∧
      r.summary = rclean.summary ∧
      r.tumor_types_found = rclean.tumor_types_found ∧
      r.sections.length = [(92:ℚ)/100, (30:ℚ)/100].length ∧
      (∀ i, i < [(92:ℚ)/100, (30:ℚ)/100].length →
        (fun img => img == [66]) ([[65], [66]].getD i []) = true →
        r.sections.getD i (.errorPlaceholder noTumorRecord) =
          .errorPlaceholder
            (classify_tumor_type ([(92:ℚ)/100, (30:ℚ)/100].getD i 0)
              ([[65], [66]].getD i []))) :=
  C8_per_item_containment (fun img => img == [66]) [(92:ℚ)/100, (30:ℚ)/100]
    [[65], [66]] (by simp) (by simp)

/-- C9: after the per-item loop the counters satisfy
`positive + negative = total` and `critical + high ≤ positive`. -/
theorem C9_summary_invariants (d : List Nat → Bool) (results : List ℚ)
    (images : List (List Nat)) (r : Report)
    (h : generate_report d results images = .ok r) :
    r.summary.positive_count + r.summary.negative_count = r.summary.total ∧
    r.summary.critical_risk_count + r.summary.high_risk_count ≤
      r.summary.positive_count := by
  obtain ⟨st, hl, hz, hr⟩ := generate_report_ok_elim d results images r h
  obtain ⟨h1, h2⟩ := reportLoop_stats_inv d images results 0 _ st hl
  subst hr
  constructor
  · simp only [mkSummary]
    simp only [initStats] at h1
    omega
  · exact h2 (by simp [initStats])

/-- C9 witness: the invariants at the concrete two-item batch. -/
theorem C9_witness :
    ∃ r, generate_report (fun _ => false) [(92:ℚ)/100, (30:ℚ)/100] [[65], [66]] = .ok r ∧
      r.summary.positive_count + r.summary.negative_count = r.summary.total ∧
      r.summary.critical_risk_count + r.summary.high_risk_count ≤
        r.summary.positive_count := by
  have h := generate_report_ok_char (fun _ => false) [(92:ℚ)/100, (30:ℚ)/100]
    [[65], [66]] (by simp) (by simp)
  exact ⟨_, h, C9_summary_invariants _ _ _ _ h⟩

/-- C10: when the result list is longer than the image list, the
out-of-range `images_base64[idx]` access happens while resolving the
classification, before the per-item handler: the whole report generation
fails, no placeholder section is produced, and the route answers through the
top-level 500 path with no PDF. -/
theorem C10_overlong_results (d : List Nat → Bool) (results : List ℚ)
    (images : List (List Nat)) (h : images.length < results.length) :
    generate_report d results images = .error .indexError ∧
    generate_report_route d results images = .serverError .indexError := by
  have hl : reportLoop d images results 0 { stats := initStats, sections := [] } =
      .error .indexError :=
    reportLoop_indexError d images results 0 _ (Nat.zero_le _) (by omega)
  constructor
  · simp only [generate_report, hl]
  · simp only [generate_report_route, generate_report, hl]

/-- C10 witness: one probability, no images. -/
theorem C10_witness :
    generate_report (fun _ => false) [(9:ℚ)/10] [] = .error .indexError ∧
    generate_report_route (fun _ => false) [(9:ℚ)/10] [] =
      .serverError .indexError :=
  C10_overlong_results (fun _ => false) [(9:ℚ)/10] [] (by simp)
